import Mathlib

/-!
Verification development for the `uniqfunc` repository.

The Python sources under `src/uniqfunc/` (`cli.py`, `parser.py`) are embedded
shallowly below.  External collaborators that are not part of the repository
(the Python standard library's `ast.parse`, `argparse`, the filesystem) are
modelled as oracles (plain function parameters).  Modules of the repository
that are referenced but whose source is not available (`uniqfunc/model.py`,
`uniqfunc/fingerprint.py`, `uniqfunc/git_files.py`, the package version in
`uniqfunc/__init__.py`) are modelled from the specification; each such
definition carries a doc comment starting with `Modelled from the spec:`.

Machine integers do not occur (line/column numbers are small Python ints,
modelled as `Nat`).  A raised Python exception is modelled by the `error`
branch of `Except PyExc`.
-/

deriving instance DecidableEq for Except

namespace Uniqfunc

/-- A Python exception that escapes a function (e.g. a failing `assert`). -/
inductive PyExc
  | assertionError
deriving DecidableEq, Repr

/-- Model of `pathlib.Path`: an absolute-flag plus the list of components.
`Path("/repo/a.py")` is `⟨true, ["repo", "a.py"]⟩`; `Path("a.py")` is
`⟨false, ["a.py"]⟩`. -/
structure PPath where
  absolute : Bool
  comps : List String
deriving DecidableEq, Repr

/-- `Path.as_posix()`: leading slash for absolute paths, components joined
by `/`. -/
def pathAsPosix (p : PPath) : String :=
  (if p.absolute then "/" else "") ++ String.intercalate "/" p.comps

/-- `root / rel` on `pathlib.Path`: if the right operand is absolute it wins,
otherwise the components are concatenated. -/
def pathJoin (root rel : PPath) : PPath :=
  if rel.absolute then rel else ⟨root.absolute, root.comps ++ rel.comps⟩

/-- `root in path.parents`: `root` is a proper ancestor of `path`. -/
def pathIsParent (root p : PPath) : Bool :=
  root.absolute == p.absolute
    && root.comps.isPrefixOf p.comps
    && decide (root.comps.length < p.comps.length)

/-- `path.relative_to(root)` when `root` is an ancestor (or equal):
drop the shared components. -/
def pathRelativeTo (p root : PPath) : PPath :=
  ⟨false, p.comps.drop root.comps.length⟩

/-- `Path.resolve()` on a repository root.  Roots returned by the resolver
oracle are already canonical absolute paths, so resolution is the identity;
symlink handling is outside the model. -/
def pathResolve (p : PPath) : PPath := p

/-- `ScanError` record. Modelled from the spec: `uniqfunc/model.py` is not
under `src/`; the spec (§3, §7) describes scan errors as carrying a
classification code, a repo-relative path, 1-based line and column, and a
message. -/
structure ScanError where
  code : String
  path : PPath
  line : Nat
  col : Nat
  message : String
deriving DecidableEq, Repr

/-- `cli.READ_ERROR_CODE`. -/
def READ_ERROR_CODE : String := "UQF000"

/-- `cli.SYNTAX_ERROR_CODE`. -/
def SYNTAX_ERROR_CODE : String := "UQF001"

/-- State of one path on the filesystem, as observed by `read_source`:
either not an existing regular file, or a file whose read raises `OSError`,
or a file with decoded text content (decoding is folded into the oracle). -/
inductive FileState
  | notAFile
  | osError (msg : String)
  | text (content : String)
deriving DecidableEq, Repr

/-- `cli._repo_relative_path`: asserts that `path` is inside the repo root,
then strips the root.  A failing `assert` raises `AssertionError`. -/
def _repo_relative_path (repo_root p : PPath) : Except PyExc PPath :=
  if pathIsParent repo_root p || p == repo_root then
    .ok (pathRelativeTo p repo_root)
  else
    .error .assertionError

/-- `cli.ReadOutcome` / `cli.ReadFailure` union (`cli.ReadResult`). -/
inductive ReadResult
  | outcome (path : PPath) (source : String)
  | failure (error : ScanError)
deriving DecidableEq, Repr

/-- `cli.read_source`, over a filesystem oracle. -/
def read_source (fs : PPath → FileState) (repo_root file_path : PPath) :
    Except PyExc ReadResult :=
  match fs file_path with
  | .notAFile => do
      let rel ← _repo_relative_path repo_root file_path
      return .failure
        ⟨READ_ERROR_CODE, rel, 1, 1, "file path does not exist or is not a file."⟩
  | .osError msg => do
      let rel ← _repo_relative_path repo_root file_path
      return .failure ⟨READ_ERROR_CODE, rel, 1, 1, msg⟩
  | .text s => return .outcome file_path s

/-- The data `ast.parse` reports on a `SyntaxError`: optional line, offset
and message (each may be `None`). -/
structure SyntaxExc where
  lineno : Option Nat
  offset : Option Nat
  msg : Option String
deriving DecidableEq, Repr

/-- Python `x or d` for an optional int: `None` and `0` are falsy. -/
def pyOrNat (x : Option Nat) (d : Nat) : Nat :=
  match x with
  | none => d
  | some n => if n = 0 then d else n

/-- Python `x or d` for an optional string: `None` and `""` are falsy. -/
def pyOrStr (x : Option String) (d : String) : String :=
  match x with
  | none => d
  | some s => if s = "" then d else s

/-- `cli.ParseOutcome` / `cli.ParseFailure` union (`cli.ParseResult`).  The
tree of a successful parse is never inspected by `cli.py`, so it is not
carried. -/
inductive ParseResult
  | outcome
  | failure (error : ScanError)
deriving DecidableEq, Repr

/-- `cli.parse_source`, over an `ast.parse` oracle (`none` = parse ok,
`some exc` = `SyntaxError` raised with the given data). -/
def parse_source (pparse : String → Option SyntaxExc)
    (repo_root file_path : PPath) (source : String) :
    Except PyExc ParseResult :=
  match pparse source with
  | none => return .outcome
  | some exc => do
      let rel ← _repo_relative_path repo_root file_path
      let line := pyOrNat exc.lineno 1
      let col := pyOrNat exc.offset 1
      let message := pyOrStr exc.msg "syntax error"
      return .failure ⟨SYNTAX_ERROR_CODE, rel, line, col, "syntax error: " ++ message⟩

/-- `cli._scan_files`: read and parse each listed file in order, collecting
the per-file errors. -/
def _scan_files (fs : PPath → FileState) (pparse : String → Option SyntaxExc)
    (repo_root : PPath) : List PPath → Except PyExc (List ScanError)
  | [] => return []
  | rel_path :: rest => do
      let file_path := pathJoin repo_root rel_path
      let read_result ← read_source fs repo_root file_path
      match read_result with
      | .failure e =>
          let tail ← _scan_files fs pparse repo_root rest
          return e :: tail
      | .outcome _ src =>
          let parse_result ← parse_source pparse repo_root file_path src
          let tail ← _scan_files fs pparse repo_root rest
          match parse_result with
          | .failure e => return e :: tail
          | .outcome => return tail

/-- `FuncRef`. Modelled from the spec: `uniqfunc/model.py` is not under
`src/`; per §3 a function descriptor carries location (path, 1-based line
and column), name, parameters, optional return annotation, optional
docstring, and the attached fingerprint (structural token stream, §4.1). -/
structure FuncRef where
  path : PPath
  line : Nat
  col : Nat
  name : String
  params : List String
  returns : Option String
  doc : Option String
  ast_fingerprint : List String
deriving DecidableEq, Repr

/-- `NamingConflict`. Modelled from the spec: `uniqfunc/model.py` is not
under `src/`; per §3 it records a name, the offending occurrence and the
first-seen occurrence. -/
structure NamingConflict where
  name : String
  occurrence : FuncRef
  first_seen : FuncRef
deriving DecidableEq, Repr

/-- `ReuseCandidate`. Modelled from the spec: `uniqfunc/model.py` is not
under `src/`; per §3 it records a location, a name, a score in `[0, 1]` and
a mapping of signal names to numeric contributions.  Python floats are
modelled as rationals. -/
structure ReuseCandidate where
  path : PPath
  line : Nat
  col : Nat
  name : String
  score : ℚ
  signals : List (String × ℚ)
deriving DecidableEq, Repr

/-- `ReuseSuggestion`. Modelled from the spec: `uniqfunc/model.py` is not
under `src/`; per §3 it pairs a target descriptor with an ordered candidate
sequence. -/
structure ReuseSuggestion where
  target : FuncRef
  candidates : List ReuseCandidate
deriving DecidableEq, Repr

/-- `ScanResult`. Modelled from the spec: `uniqfunc/model.py` is not under
`src/`; per §3 it aggregates the repo root, the function descriptors, the
naming conflicts, the reuse suggestions and the upstream errors.  `cli.py`
constructs it passing only `repo_root` and `errors`, so the remaining
fields default to empty. -/
structure ScanResult where
  repo_root : PPath
  functions : List FuncRef := []
  conflicts : List NamingConflict := []
  suggestions : List ReuseSuggestion := []
  errors : List ScanError := []
deriving DecidableEq, Repr

/-- The external collaborators `cli.main` runs against.  `fs` and `pparse`
stand for the filesystem and `ast.parse` (Python standard library);
`resolve_repo_root` and `list_python_files` stand for
`uniqfunc/git_files.py`, which is not under `src/` and whose contracts the
spec gives in §6 (canonical repo root or structured failure; ordered
repo-relative file list or structured failure); `resolve_path` stands for
`Path(s).resolve()` on the command-line path argument. -/
structure Env where
  fs : PPath → FileState
  pparse : String → Option SyntaxExc
  resolve_repo_root : PPath → Except ScanError PPath
  list_python_files : PPath → Except ScanError (List PPath)
  resolve_path : String → PPath

/-- `cli.scan_repository`: resolve the root, list the files, scan them.
The outer `Except PyExc` models raised exceptions, the inner
`Except ScanError ScanResult` models the `ScanResult | ScanError` union
returned by the Python function. -/
def scan_repository (env : Env) (cwd : PPath) :
    Except PyExc (Except ScanError ScanResult) :=
  match env.resolve_repo_root cwd with
  | .error e => return .error e
  | .ok repo_root =>
      match env.list_python_files repo_root with
      | .error e => return .error e
      | .ok files => do
          let errors ← _scan_files env.fs env.pparse repo_root files
          return .ok { repo_root := repo_root, errors := errors }

/-- One character of `json.dumps` string escaping (quote, backslash and the
common control characters; other control characters and non-ASCII
`\u`-escapes do not occur in the inputs considered here). -/
def jsonEscapeChar (c : Char) : String :=
  if c = '\\' then "\\\\"
  else if c = '"' then "\\\""
  else if c = '\n' then "\\n"
  else if c = '\t' then "\\t"
  else if c = '\r' then "\\r"
  else String.singleton c

/-- `json.dumps` string escaping. -/
def jsonEscape (s : String) : String :=
  String.join (s.toList.map jsonEscapeChar)

/-- A JSON string literal. -/
def jsonStr (s : String) : String := "\"" ++ jsonEscape s ++ "\""

/-- `n` spaces. -/
def sp (n : Nat) : String := String.mk (List.replicate n ' ')

/-- Render a JSON array at indentation `ind` as `json.dumps(..., indent=2)`
does: `[]` when empty, otherwise one item per line indented by `ind + 2`. -/
def jarrRender (ind : Nat) (items : List String) : String :=
  match items with
  | [] => "[]"
  | _ =>
      "[\n" ++ String.intercalate ",\n" (items.map fun s => sp (ind + 2) ++ s)
        ++ "\n" ++ sp ind ++ "]"

/-- Render a JSON object at indentation `ind` as `json.dumps(..., indent=2)`
does; field values are pre-rendered at indentation `ind + 2`. -/
def jobjRender (ind : Nat) (fields : List (String × String)) : String :=
  match fields with
  | [] => "\x7b\x7d"
  | _ =>
      "\x7b\n"
        ++ String.intercalate ",\n"
            (fields.map fun kv => sp (ind + 2) ++ jsonStr kv.1 ++ ": " ++ kv.2)
        ++ "\n" ++ sp ind ++ "\x7d"

/-- JSON rendering of a score.  Python would print a float; scores are
modelled as rationals and never reach the renderer in the behaviours proved
below, so the textual form is a placeholder. -/
def ratRender (q : ℚ) : String := toString q.num ++ "/" ++ toString q.den

/-- `cli._path_to_string`. -/
def _path_to_string (p : PPath) : String := pathAsPosix p

/-- `cli._func_ref_location`, rendered at indentation `ind`. -/
def _func_ref_location (ind : Nat) (f : FuncRef) : String :=
  jobjRender ind
    [("path", jsonStr (_path_to_string f.path)),
     ("line", toString f.line),
     ("col", toString f.col)]

/-- `cli._naming_conflict_json`, rendered at indentation `ind`. -/
def _naming_conflict_json (ind : Nat) (c : NamingConflict) : String :=
  jobjRender ind
    [("code", jsonStr "UQF100"),
     ("name", jsonStr c.name),
     ("occurrence", _func_ref_location (ind + 2) c.occurrence),
     ("first_seen", _func_ref_location (ind + 2) c.first_seen)]

/-- `cli._reuse_candidate_json`, rendered at indentation `ind`. -/
def _reuse_candidate_json (ind : Nat) (c : ReuseCandidate) : String :=
  jobjRender ind
    [("path", jsonStr (_path_to_string c.path)),
     ("line", toString c.line),
     ("col", toString c.col),
     ("name", jsonStr c.name),
     ("score", ratRender c.score),
     ("signals",
       jobjRender (ind + 2) (c.signals.map fun kv => (kv.1, ratRender kv.2)))]

/-- `cli._reuse_suggestion_json`, rendered at indentation `ind`. -/
def _reuse_suggestion_json (ind : Nat) (s : ReuseSuggestion) : String :=
  jobjRender ind
    [("target",
       jobjRender (ind + 2)
         [("path", jsonStr (_path_to_string s.target.path)),
          ("line", toString s.target.line),
          ("col", toString s.target.col),
          ("name", jsonStr s.target.name)]),
     ("candidates",
       jarrRender (ind + 2) (s.candidates.map (_reuse_candidate_json (ind + 4))))]

/-- `cli._scan_error_json`, rendered at indentation `ind`. -/
def _scan_error_json (ind : Nat) (e : ScanError) : String :=
  jobjRender ind
    [("code", jsonStr e.code),
     ("path", jsonStr (_path_to_string e.path)),
     ("line", toString e.line),
     ("col", toString e.col),
     ("message", jsonStr e.message)]

/-- `cli.format_json`.  The Python function reads the package version from
`uniqfunc.__init__` (not under `src/`); it is passed in as `version`. -/
def format_json (version : String) (r : ScanResult) : String :=
  jobjRender 0
    [("version", jsonStr version),
     ("repo_root", jsonStr (_path_to_string (pathResolve r.repo_root))),
     ("naming_conflicts", jarrRender 2 (r.conflicts.map (_naming_conflict_json 4))),
     ("reuse_suggestions", jarrRender 2 (r.suggestions.map (_reuse_suggestion_json 4))),
     ("errors", jarrRender 2 (r.errors.map (_scan_error_json 4)))]

/-- The parsed command-line arguments of `cli.build_arg_parser` with their
declared defaults.  `argparse` converts the threshold with `float(...)`;
acceptance is modelled by the `floatOk` oracle below and the converted
value — which `main` never reads — is represented by its accepted source
text. -/
structure Args where
  path : String := "."
  format : String := "text"
  similarity_threshold : String := "0.70"
  version : Bool := false
deriving DecidableEq, Repr

/-- The two ways `argparse` terminates the process during parsing:
`-h`/`--help` prints help and exits 0; any parse error prints usage to
stderr and exits 2. -/
inductive ArgparseExit
  | help
  | usageError
deriving DecidableEq, Repr

/-- Whether a token starts with the `argparse` option-prefix character `-`
(character-level equivalent of `String.startsWith`, which does not reduce
definitionally). -/
def startsWithDash (t : String) : Bool :=
  match t.data with
  | [] => false
  | c :: _ => c == '-'

/-- One token-consuming step of the argument parser built by
`cli.build_arg_parser` (one optional positional `path`, `--format` with
choices `text`/`json`, `--similarity-threshold` with a float value,
`--version` flag).  Option abbreviation, `--opt=value` syntax and the `--`
separator of `argparse` are not modelled; the behaviours proved below use
the exact spellings only. -/
def parseArgsGo (floatOk : String → Bool) :
    List String → Args → Bool → Except ArgparseExit Args
  | [], a, _ => .ok a
  | t :: rest, a, seenPositional =>
      if t = "-h" ∨ t = "--help" then .error .help
      else if t = "--version" then
        parseArgsGo floatOk rest { a with version := true } seenPositional
      else if t = "--format" then
        match rest with
        | [] => .error .usageError
        | v :: rest2 =>
            if v = "text" ∨ v = "json" then
              parseArgsGo floatOk rest2 { a with format := v } seenPositional
            else .error .usageError
      else if t = "--similarity-threshold" then
        match rest with
        | [] => .error .usageError
        | v :: rest2 =>
            if floatOk v then
              parseArgsGo floatOk rest2 { a with similarity_threshold := v } seenPositional
            else .error .usageError
      else if startsWithDash t ∧ t ≠ "-" then .error .usageError
      else if seenPositional then .error .usageError
      else parseArgsGo floatOk rest { a with path := t } true

/-- `parser.parse_args(argv)` for the parser of `cli.build_arg_parser`. -/
def parseArgs (floatOk : String → Bool) (argv : List String) :
    Except ArgparseExit Args :=
  parseArgsGo floatOk argv {} false

/-- One chunk written to stdout: a `print(...)` call (the string is followed
by a newline), or the `argparse`-generated help text (whose content is
external to the repository). -/
inductive OutChunk
  | text (s : String)
  | helpText
deriving DecidableEq, Repr

/-- The observable outcome of one `main` invocation: the stdout chunks in
order, and the process exit status.  Stderr (usage text) and the log file
written by `configure_logging` are not modelled. -/
structure MainResult where
  stdout : List OutChunk
  exit : Nat
deriving DecidableEq, Repr

/-- `cli.main` after argument parsing: the version branch, then the scan
and the report. -/
def mainFromArgs (env : Env) (version : String) (args : Args) :
    Except PyExc MainResult :=
  if args.version then
    return ⟨[.text version], 0⟩
  else do
    let cwd := env.resolve_path args.path
    let scan_outcome ← scan_repository env cwd
    match scan_outcome with
    | .error e =>
        let result : ScanResult := { repo_root := cwd, errors := [e] }
        return ⟨[.text (format_json version result)], 2⟩
    | .ok r =>
        return ⟨[.text (format_json version r)], 0⟩

/-- `cli.main`: parse the arguments (an `argparse` exit becomes the
corresponding `MainResult`), then run `mainFromArgs`. -/
def main (env : Env) (version : String) (floatOk : String → Bool)
    (argv : List String) : Except PyExc MainResult :=
  match parseArgs floatOk argv with
  | .error .help => return ⟨[.helpText], 0⟩
  | .error .usageError => return ⟨[], 2⟩
  | .ok args => mainFromArgs env version args

/-- `ast.arguments`: the parameter lists of a Python function definition,
each parameter carried by name.  Defaults and annotations are not read by
`parser._extract_params` and are omitted. -/
structure PyArguments where
  posonlyargs : List String
  args : List String
  vararg : Option String
  kwonlyargs : List String
  kwarg : Option String
deriving DecidableEq, Repr

/-- `parser._extract_params`, mirroring the imperative appends of the
source. -/
def _extract_params (a : PyArguments) : List String := Id.run do
  let mut params : List String := []
  params := params ++ a.posonlyargs
  params := params ++ a.args
  if let some v := a.vararg then
    params := params ++ ["*" ++ v]
  params := params ++ a.kwonlyargs
  if let some k := a.kwarg then
    params := params ++ ["**" ++ k]
  return params

/-- The four parameter kinds named by the spec (§3): positional (covering
positional-only and positional-or-keyword), variadic-positional,
keyword-only, variadic-keyword. -/
inductive ParamKind
  | positional
  | variadicPositional
  | keywordOnly
  | variadicKeyword
deriving DecidableEq, Repr

/-- The kind of each declared parameter, in declaration order. -/
def paramKindSeq (a : PyArguments) : List ParamKind :=
  a.posonlyargs.map (fun _ => .positional)
    ++ a.args.map (fun _ => .positional)
    ++ (match a.vararg with | none => [] | some _ => [.variadicPositional])
    ++ a.kwonlyargs.map (fun _ => .keywordOnly)
    ++ (match a.kwarg with | none => [] | some _ => [.variadicKeyword])

/-- `[f v]` when the optional parameter is present, `[]` otherwise. -/
def optList (f : String → String) : Option String → List String
  | none => []
  | some v => [f v]

/-- A Python literal (`ast.Constant` value).  Modelled from the spec:
`uniqfunc/fingerprint.py` is not under `src/`; §4.1 normalizes constants to
a type-tag placeholder. -/
inductive PyLit
  | intL (v : Int)
  | strL (v : String)
  | boolL (v : Bool)
  | noneL
deriving DecidableEq, Repr

/-- A binary operator kind. -/
inductive BinOpKind
  | add
  | sub
  | mult
  | div
  | lt
  | gt
  | eqOp
deriving DecidableEq, Repr

mutual

/-- A fragment of the Python expression AST walked by the Fingerprinter. -/
inductive PyExpr
  | name (id : String)
  | const (v : PyLit)
  | binop (op : BinOpKind) (l r : PyExpr)
  | call (f : PyExpr) (argsE : PyExprList)

/-- A list of expressions (mutual with `PyExpr` so that structural
recursion and induction stay available). -/
inductive PyExprList
  | nil
  | cons (e : PyExpr) (es : PyExprList)

end

mutual

/-- A fragment of the Python statement AST walked by the Fingerprinter. -/
inductive PyStmt
  | ret (e : Option PyExpr)
  | assign (target : String) (e : PyExpr)
  | sif (cond : PyExpr) (body orelse : PyStmtList)
  | sfor (target : String) (iter : PyExpr) (body : PyStmtList)
  | exprStmt (e : PyExpr)

/-- A list of statements (mutual with `PyStmt`). -/
inductive PyStmtList
  | nil
  | cons (s : PyStmt) (ss : PyStmtList)

end

/-- The type-tag placeholder a constant is normalized to (§4.1: "int-const",
"str-const", ...). -/
def litTag : PyLit → String
  | .intL _ => "int-const"
  | .strL _ => "str-const"
  | .boolL _ => "bool-const"
  | .noneL => "none-const"

/-- The operator tag inside a `binary-op:` token (§4.1). -/
def opTag : BinOpKind → String
  | .add => "+"
  | .sub => "-"
  | .mult => "*"
  | .div => "/"
  | .lt => "<"
  | .gt => ">"
  | .eqOp => "=="

mutual

/-- Modelled from the spec: `uniqfunc/fingerprint.py` is not under `src/`.
§4.1: walk the syntax tree depth-first, emitting per node a normalized
token that encodes the node's syntactic kind while discarding identifier
names, literal values and source positions. -/
def tokE : PyExpr → List String
  | .name _ => ["name"]
  | .const v => ["constant:" ++ litTag v]
  | .binop op l r => ("binary-op:" ++ opTag op) :: (tokE l ++ tokE r)
  | .call f as => "call" :: (tokE f ++ tokEs as)

/-- Token stream of an expression list. -/
def tokEs : PyExprList → List String
  | .nil => []
  | .cons e es => tokE e ++ tokEs es

end

mutual

/-- Token stream of one statement (assignment and loop targets are
identifier nodes, normalized to the `name` token). -/
def tokS : PyStmt → List String
  | .ret none => ["return"]
  | .ret (some e) => "return" :: tokE e
  | .assign _ e => "assign" :: "name" :: tokE e
  | .sif c b o => "if" :: (tokE c ++ tokSs b ++ tokSs o)
  | .sfor _ it b => "for" :: "name" :: (tokE it ++ tokSs b)
  | .exprStmt e => "expr" :: tokE e

/-- Token stream of a statement list. -/
def tokSs : PyStmtList → List String
  | .nil => []
  | .cons s ss => tokS s ++ tokSs ss

end

/-- Tokens contributed by the parameter list: kinds are kept, names are
discarded. -/
def argTokens (a : PyArguments) : List String :=
  a.posonlyargs.map (fun _ => "arg")
    ++ a.args.map (fun _ => "arg")
    ++ (match a.vararg with | none => [] | some _ => ["vararg"])
    ++ a.kwonlyargs.map (fun _ => "kwonlyarg")
    ++ (match a.kwarg with | none => [] | some _ => ["kwarg"])

/-- An `ast.FunctionDef` as seen by `fingerprint_function`. -/
structure PyFunctionDef where
  name : String
  fargs : PyArguments
  body : PyStmtList

/-- `fingerprint_function`.  Modelled from the spec:
`uniqfunc/fingerprint.py` is not under `src/`; §4.1 defines the fingerprint
as the ordered normalized token stream of the depth-first walk (the
content-derived hash it also mentions is redundant for equality — two
fingerprints are equal iff their token streams are equal — and is
omitted). -/
def fingerprint_function (f : PyFunctionDef) : List String :=
  "functiondef" :: (argTokens f.fargs ++ tokSs f.body)

/-- Apply a renaming to every parameter name. -/
def renameArgs (σ : String → String) (a : PyArguments) : PyArguments :=
  ⟨a.posonlyargs.map σ, a.args.map σ, a.vararg.map σ,
   a.kwonlyargs.map σ, a.kwarg.map σ⟩

mutual

/-- Apply a renaming to every identifier in an expression. -/
def renameE (σ : String → String) : PyExpr → PyExpr
  | .name i => .name (σ i)
  | .const v => .const v
  | .binop op l r => .binop op (renameE σ l) (renameE σ r)
  | .call f as => .call (renameE σ f) (renameEs σ as)

/-- Apply a renaming to every identifier in an expression list. -/
def renameEs (σ : String → String) : PyExprList → PyExprList
  | .nil => .nil
  | .cons e es => .cons (renameE σ e) (renameEs σ es)

end

mutual

/-- Apply a renaming to every identifier in a statement. -/
def renameS (σ : String → String) : PyStmt → PyStmt
  | .ret none => .ret none
  | .ret (some e) => .ret (some (renameE σ e))
  | .assign t e => .assign (σ t) (renameE σ e)
  | .sif c b o => .sif (renameE σ c) (renameSs σ b) (renameSs σ o)
  | .sfor t it b => .sfor (σ t) (renameE σ it) (renameSs σ b)
  | .exprStmt e => .exprStmt (renameE σ e)

/-- Apply a renaming to every identifier in a statement list. -/
def renameSs (σ : String → String) : PyStmtList → PyStmtList
  | .nil => .nil
  | .cons s ss => .cons (renameS σ s) (renameSs σ ss)

end

/-- Rename the parameters and every identifier in the body of a function
(the declared function name is left unchanged). -/
def renameFunc (σ : String → String) (f : PyFunctionDef) : PyFunctionDef :=
  ⟨f.name, renameArgs σ f.fargs, renameSs σ f.body⟩

/-- A kind-preserving change of literal values: one value map per literal
kind. -/
structure LitMap where
  intF : Int → Int
  strF : String → String
  boolF : Bool → Bool

/-- Apply a kind-preserving literal change to one literal. -/
def applyLit (ρ : LitMap) : PyLit → PyLit
  | .intL v => .intL (ρ.intF v)
  | .strL v => .strL (ρ.strF v)
  | .boolL v => .boolL (ρ.boolF v)
  | .noneL => .noneL

mutual

/-- Apply a kind-preserving literal change throughout an expression. -/
def relitE (ρ : LitMap) : PyExpr → PyExpr
  | .name i => .name i
  | .const v => .const (applyLit ρ v)
  | .binop op l r => .binop op (relitE ρ l) (relitE ρ r)
  | .call f as => .call (relitE ρ f) (relitEs ρ as)

/-- Apply a kind-preserving literal change throughout an expression list. -/
def relitEs (ρ : LitMap) : PyExprList → PyExprList
  | .nil => .nil
  | .cons e es => .cons (relitE ρ e) (relitEs ρ es)

end

mutual

/-- Apply a kind-preserving literal change throughout a statement. -/
def relitS (ρ : LitMap) : PyStmt → PyStmt
  | .ret none => .ret none
  | .ret (some e) => .ret (some (relitE ρ e))
  | .assign t e => .assign t (relitE ρ e)
  | .sif c b o => .sif (relitE ρ c) (relitSs ρ b) (relitSs ρ o)
  | .sfor t it b => .sfor t (relitE ρ it) (relitSs ρ b)
  | .exprStmt e => .exprStmt (relitE ρ e)

/-- Apply a kind-preserving literal change throughout a statement list. -/
def relitSs (ρ : LitMap) : PyStmtList → PyStmtList
  | .nil => .nil
  | .cons s ss => .cons (relitS ρ s) (relitSs ρ ss)

end

/-- Apply a kind-preserving literal change throughout a function body. -/
def relitFunc (ρ : LitMap) (f : PyFunctionDef) : PyFunctionDef :=
  ⟨f.name, f.fargs, relitSs ρ f.body⟩

/-- The error `_scan_files` records for one listed file, if any: the read
failure, else the parse failure, else nothing.  Proved below to
characterize `_scan_files`. -/
def scanFileError (fs : PPath → FileState) (pparse : String → Option SyntaxExc)
    (root rel : PPath) : Option ScanError :=
  match fs (pathJoin root rel) with
  | .notAFile =>
      some ⟨READ_ERROR_CODE, ⟨false, rel.comps⟩, 1, 1,
        "file path does not exist or is not a file."⟩
  | .osError m => some ⟨READ_ERROR_CODE, ⟨false, rel.comps⟩, 1, 1, m⟩
  | .text s =>
      match pparse s with
      | none => none
      | some exc =>
          some ⟨SYNTAX_ERROR_CODE, ⟨false, rel.comps⟩,
            pyOrNat exc.lineno 1, pyOrNat exc.offset 1,
            "syntax error: " ++ pyOrStr exc.msg "syntax error"⟩

/-- The candidates of one suggestion are sorted non-increasing by score. -/
def candidatesSortedDesc (l : List ReuseCandidate) : Prop :=
  l.Chain' (fun a b => b.score ≤ a.score)

/-! ### Concrete instances used by the theorems below -/

/-- The repository root of the two-file duplicate scenario (spec §8:
two files each define `def dup(): ...`). -/
def dupRoot : PPath := ⟨true, ["repo"]⟩

/-- Filesystem of the duplicate scenario: `a.py` and `b.py` under the
root, each defining `dup` with a different body. -/
def dupFs : PPath → FileState := fun p =>
  if p = ⟨true, ["repo", "a.py"]⟩ then .text "def dup():\n    return 1\n"
  else if p = ⟨true, ["repo", "b.py"]⟩ then .text "def dup():\n    return 2\n"
  else .notAFile

/-- Environment of the duplicate scenario: the repo root resolves, the two
files are listed in order, and both sources parse without a syntax
error. -/
def dupEnv : Env :=
  ⟨dupFs, fun _ => none, fun _ => .ok dupRoot,
   fun _ => .ok [⟨false, ["a.py"]⟩, ⟨false, ["b.py"]⟩],
   fun _ => dupRoot⟩

/-- A float acceptance oracle that accepts every threshold spelling. -/
def fokAll : String → Bool := fun _ => true

/-- The scan result the code produces on the duplicate scenario. -/
def dupResult : ScanResult := { repo_root := dupRoot }

/-- Filesystem of the syntax-error scenario: `a.py` holds text that will
fail to parse, `b.py` holds text that parses. -/
def synFs : PPath → FileState := fun p =>
  if p = ⟨true, ["repo", "a.py"]⟩ then .text "def broken(:\n"
  else if p = ⟨true, ["repo", "b.py"]⟩ then .text "def ok():\n    return 1\n"
  else .notAFile

/-- `ast.parse` oracle of the syntax-error scenario: the broken source
raises a `SyntaxError` whose offset is `None` and whose message is empty
(exercising the `or`-defaults), the other parses. -/
def synParse : String → Option SyntaxExc := fun s =>
  if s = "def broken(:\n" then some ⟨some 3, none, some ""⟩ else none

/-- Example function for the fingerprint claims:
`def f(x): return x + 1`. -/
def exAdd : PyFunctionDef :=
  ⟨"f", ⟨[], ["x"], none, [], none⟩,
   .cons (.ret (some (.binop .add (.name "x") (.const (.intL 1))))) .nil⟩

/-- `def f(x): return x - 1` (operator kind changed w.r.t. `exAdd`). -/
def exSub : PyFunctionDef :=
  ⟨"f", ⟨[], ["x"], none, [], none⟩,
   .cons (.ret (some (.binop .sub (.name "x") (.const (.intL 1))))) .nil⟩

/-- `def f(x): return x` (a name node where `exIntLit` has a constant). -/
def exName : PyFunctionDef :=
  ⟨"f", ⟨[], ["x"], none, [], none⟩, .cons (.ret (some (.name "x"))) .nil⟩

/-- `def f(x): return 1`. -/
def exIntLit : PyFunctionDef :=
  ⟨"f", ⟨[], ["x"], none, [], none⟩, .cons (.ret (some (.const (.intL 1)))) .nil⟩

/-- `def f(x): return "a"` (literal kind changed w.r.t. `exIntLit`). -/
def exStrLit : PyFunctionDef :=
  ⟨"f", ⟨[], ["x"], none, [], none⟩, .cons (.ret (some (.const (.strL "a")))) .nil⟩

/-- `def f(x):` with body `if x: return` (control flow differing from
`exFor`). -/
def exIf : PyFunctionDef :=
  ⟨"f", ⟨[], ["x"], none, [], none⟩,
   .cons (.sif (.name "x") (.cons (.ret none) .nil) .nil) .nil⟩

/-- `def f(x):` with body `for i in x: return`. -/
def exFor : PyFunctionDef :=
  ⟨"f", ⟨[], ["x"], none, [], none⟩,
   .cons (.sfor "i" (.name "x") (.cons (.ret none) .nil)) .nil⟩

/-- Parsed arguments with only the `--version` flag set. -/
def versionArgs : Args := { version := true }

/-! ### Fingerprint invariance lemmas -/

mutual

/-- The token stream of an expression ignores identifier names. -/
theorem tokE_renameE (σ : String → String) :
    ∀ e : PyExpr, tokE (renameE σ e) = tokE e
  | .name _ => rfl
  | .const _ => rfl
  | .binop op l r => by
      simp only [renameE, tokE, tokE_renameE σ l, tokE_renameE σ r]
  | .call f as => by
      simp only [renameE, tokE, tokE_renameE σ f, tokEs_renameEs σ as]

/-- The token stream of an expression list ignores identifier names. -/
theorem tokEs_renameEs (σ : String → String) :
    ∀ es : PyExprList, tokEs (renameEs σ es) = tokEs es
  | .nil => rfl
  | .cons e es => by
      simp only [renameEs, tokEs, tokE_renameE σ e, tokEs_renameEs σ es]

end

mutual

/-- The token stream of a statement ignores identifier names. -/
theorem tokS_renameS (σ : String → String) :
    ∀ s : PyStmt, tokS (renameS σ s) = tokS s
  | .ret none => rfl
  | .ret (some e) => by simp only [renameS, tokS, tokE_renameE σ e]
  | .assign t e => by simp only [renameS, tokS, tokE_renameE σ e]
  | .sif c b o => by
      simp only [renameS, tokS, tokE_renameE σ c, tokSs_renameSs σ b,
        tokSs_renameSs σ o]
  | .sfor t it b => by
      simp only [renameS, tokS, tokE_renameE σ it, tokSs_renameSs σ b]
  | .exprStmt e => by simp only [renameS, tokS, tokE_renameE σ e]

/-- The token stream of a statement list ignores identifier names. -/
theorem tokSs_renameSs (σ : String → String) :
    ∀ ss : PyStmtList, tokSs (renameSs σ ss) = tokSs ss
  | .nil => rfl
  | .cons s ss => by
      simp only [renameSs, tokSs, tokS_renameS σ s, tokSs_renameSs σ ss]

end

/-- Parameter tokens ignore parameter names. -/
theorem argTokens_renameArgs (σ : String → String) (a : PyArguments) :
    argTokens (renameArgs σ a) = argTokens a := by
  obtain ⟨po, ar, va, kw, kwa⟩ := a
  cases va <;> cases kwa <;>
    simp [renameArgs, argTokens, List.map_map, Function.comp_def, Option.map]

/-- A kind-preserving literal change keeps the type tag. -/
theorem litTag_applyLit (ρ : LitMap) (v : PyLit) :
    litTag (applyLit ρ v) = litTag v := by
  cases v <;> rfl

mutual

/-- The token stream of an expression ignores literal values. -/
theorem tokE_relitE (ρ : LitMap) :
    ∀ e : PyExpr, tokE (relitE ρ e) = tokE e
  | .name _ => rfl
  | .const v => by simp only [relitE, tokE, litTag_applyLit ρ v]
  | .binop op l r => by
      simp only [relitE, tokE, tokE_relitE ρ l, tokE_relitE ρ r]
  | .call f as => by
      simp only [relitE, tokE, tokE_relitE ρ f, tokEs_relitEs ρ as]

/-- The token stream of an expression list ignores literal values. -/
theorem tokEs_relitEs (ρ : LitMap) :
    ∀ es : PyExprList, tokEs (relitEs ρ es) = tokEs es
  | .nil => rfl
  | .cons e es => by
      simp only [relitEs, tokEs, tokE_relitE ρ e, tokEs_relitEs ρ es]

end

mutual

/-- The token stream of a statement ignores literal values. -/
theorem tokS_relitS (ρ : LitMap) :
    ∀ s : PyStmt, tokS (relitS ρ s) = tokS s
  | .ret none => rfl
  | .ret (some e) => by simp only [relitS, tokS, tokE_relitE ρ e]
  | .assign t e => by simp only [relitS, tokS, tokE_relitE ρ e]
  | .sif c b o => by
      simp only [relitS, tokS, tokE_relitE ρ c, tokSs_relitSs ρ b,
        tokSs_relitSs ρ o]
  | .sfor t it b => by
      simp only [relitS, tokS, tokE_relitE ρ it, tokSs_relitSs ρ b]
  | .exprStmt e => by simp only [relitS, tokS, tokE_relitE ρ e]

/-- The token stream of a statement list ignores literal values. -/
theorem tokSs_relitSs (ρ : LitMap) :
    ∀ ss : PyStmtList, tokSs (relitSs ρ ss) = tokSs ss
  | .nil => rfl
  | .cons s ss => by
      simp only [relitSs, tokSs, tokS_relitS ρ s, tokSs_relitSs ρ ss]

end

/-- C4: fingerprint equality over function bodies is reflexive and
symmetric; the fingerprint is invariant under any simultaneous pure
renaming of parameters and local identifiers together with any
kind-preserving change of literal values (hence two functions of identical
shape that differ only in identifier names and in literal values of the
same kinds get equal fingerprints); it is not invariant under changing an
operator kind, a node kind, a literal kind, or the control-flow shape. -/
theorem uqf_c4_fingerprint_invariance :
    (∀ f : PyFunctionDef, fingerprint_function f = fingerprint_function f)
    ∧ (∀ f g : PyFunctionDef,
        fingerprint_function f = fingerprint_function g →
          fingerprint_function g = fingerprint_function f)
    ∧ (∀ (σ : String → String) (ρ : LitMap) (f : PyFunctionDef),
        fingerprint_function (renameFunc σ (relitFunc ρ f))
          = fingerprint_function f)
    ∧ fingerprint_function exAdd ≠ fingerprint_function exSub
    ∧ fingerprint_function exName ≠ fingerprint_function exIntLit
    ∧ fingerprint_function exIntLit ≠ fingerprint_function exStrLit
    ∧ fingerprint_function exIf ≠ fingerprint_function exFor := by
  refine ⟨fun f => rfl, fun f g h => h.symm, fun σ ρ f => ?_, ?_, ?_, ?_, ?_⟩
  · simp only [fingerprint_function, renameFunc, relitFunc,
      argTokens_renameArgs, tokSs_renameSs, tokSs_relitSs]
  · decide
  · decide
  · decide
  · decide

/-- Witness for C4: the symmetry conjunct applied at a concrete pair,
its hypothesis discharged by the reflexivity conjunct. -/
theorem uqf_c4_fingerprint_invariance_witness :
    fingerprint_function exAdd = fingerprint_function exAdd :=
  uqf_c4_fingerprint_invariance.2.1 exAdd exAdd
    (uqf_c4_fingerprint_invariance.1 exAdd)

/-- C7 counterexample: `def f(a, b)` and `def g(a, *, b)` have different
parameter-kind sequences (positional/positional versus
positional/keyword-only) yet `_extract_params` records both as
`["a", "b"]`, so the descriptor does not distinguish keyword-only
parameters from positional ones. -/
theorem uqf_c7_params_counterexample :
    _extract_params ⟨[], ["a", "b"], none, [], none⟩
        = _extract_params ⟨[], ["a"], none, ["b"], none⟩
      ∧ paramKindSeq ⟨[], ["a", "b"], none, [], none⟩
          ≠ paramKindSeq ⟨[], ["a"], none, ["b"], none⟩ := by
  decide

/-- C7 amended: `_extract_params` lists the parameters in declaration
order, one entry per declared parameter; a variadic-positional parameter is
tagged with a `*` prefix and a variadic-keyword parameter with a `**`
prefix, while positional and keyword-only parameters are recorded as bare
names (and hence are not distinguished from each other). -/
theorem uqf_c7_params_amended (a : PyArguments) :
    _extract_params a
        = a.posonlyargs ++ a.args ++ optList (fun n => "*" ++ n) a.vararg
            ++ a.kwonlyargs ++ optList (fun n => "**" ++ n) a.kwarg
      ∧ (_extract_params a).length = (paramKindSeq a).length := by
  obtain ⟨po, ar, va, kw, kwa⟩ := a
  cases va <;> cases kwa <;>
    simp [_extract_params, optList, paramKindSeq, Id.run, List.length_append] <;>
    omega

/-- C10 counterexample: for the repo root `/repo` and the missing file path
`/other/f.py` — which is not inside the root — `read_source` does not
return a `ReadFailure`: the `assert` in `_repo_relative_path` fails, so the
call raises `AssertionError` (modelled by the `error` branch). -/
theorem uqf_c10_read_source_counterexample :
    read_source (fun _ => FileState.notAFile) ⟨true, ["repo"]⟩
        ⟨true, ["other", "f.py"]⟩
      = Except.error PyExc.assertionError := by
  decide

/-- C10 amended: for every file path lying under the repo root (or equal to
it), `read_source` is total over its error branches: a missing or
non-regular file and an `OSError` during reading each yield a `ReadFailure`
whose `ScanError` has code `UQF000`, the repo-relative path, line 1 and
column 1; otherwise it returns a `ReadOutcome` carrying the file's decoded
text. -/
theorem uqf_c10_read_source_amended (fs : PPath → FileState)
    (root p : PPath) (h : pathIsParent root p = true ∨ p = root) :
    read_source fs root p =
      match fs p with
      | .notAFile =>
          .ok (.failure ⟨READ_ERROR_CODE, pathRelativeTo p root, 1, 1,
            "file path does not exist or is not a file."⟩)
      | .osError m =>
          .ok (.failure ⟨READ_ERROR_CODE, pathRelativeTo p root, 1, 1, m⟩)
      | .text s => .ok (.outcome p s) := by
  have hrel : _repo_relative_path root p = .ok (pathRelativeTo p root) := by
    unfold _repo_relative_path
    rcases h with h | h
    · simp [h]
    · simp [h]
  unfold read_source
  cases fs p <;> simp [hrel, pure, Except.pure, bind, Except.bind]

/-- Witness for C10 amended: an unreadable file directly under the root. -/
theorem uqf_c10_read_source_amended_witness :
    read_source (fun _ => FileState.osError "Permission denied")
        ⟨true, ["repo"]⟩ ⟨true, ["repo", "a.py"]⟩
      = Except.ok (ReadResult.failure
          ⟨READ_ERROR_CODE, ⟨false, ["a.py"]⟩, 1, 1, "Permission denied"⟩) :=
  (uqf_c10_read_source_amended (fun _ => FileState.osError "Permission denied")
      ⟨true, ["repo"]⟩ ⟨true, ["repo", "a.py"]⟩ (Or.inl (by decide))).trans
    (by decide)

/-- Joining a nonempty relative path onto the root and taking the
repo-relative path gives that relative path back (the `assert` holds). -/
theorem repo_relative_of_join (root rel : PPath) (habs : rel.absolute = false)
    (hne : rel.comps ≠ []) :
    _repo_relative_path root (pathJoin root rel) = .ok ⟨false, rel.comps⟩ := by
  have hjoin : pathJoin root rel = ⟨root.absolute, root.comps ++ rel.comps⟩ := by
    simp [pathJoin, habs]
  have h1 : root.comps.isPrefixOf (root.comps ++ rel.comps) = true := by
    rw [ List.isPrefixOf_iff_prefix]
    exact List.prefix_append _ _
  have h2 : root.comps.length < (root.comps ++ rel.comps).length := by
    simp [List.length_append]
    exact List.length_pos.mpr hne
  rw [hjoin]
  have hpar : pathIsParent root ⟨root.absolute, root.comps ++ rel.comps⟩ = true := by
    simp [pathIsParent, h1, h2]
    exact List.length_pos.mpr hne
  unfold _repo_relative_path
  simp [hpar, pathRelativeTo, List.drop_left]

/-- `_scan_files` collects, in order, exactly the per-file errors given by
`scanFileError` — one optional error per listed file. -/
theorem scan_files_filterMap (fs : PPath → FileState)
    (pparse : String → Option SyntaxExc) (root : PPath) :
    ∀ files : List PPath,
      (∀ rel ∈ files, rel.absolute = false ∧ rel.comps ≠ []) →
      _scan_files fs pparse root files
        = .ok (files.filterMap (scanFileError fs pparse root))
  | [], _ => by simp [_scan_files, pure, Except.pure]
  | rel :: rest, h => by
      have habs := (h rel (by simp)).1
      have hne := (h rel (by simp)).2
      have ih := scan_files_filterMap fs pparse root rest
        (fun r hr => h r (by simp [hr]))
      have hrel := repo_relative_of_join root rel habs hne
      unfold _scan_files
      cases hfs : fs (pathJoin root rel) with
      | notAFile =>
          simp [read_source, hfs, hrel, bind, Except.bind, pure, Except.pure,
            ih, List.filterMap_cons, scanFileError]
      | osError m =>
          simp [read_source, hfs, hrel, bind, Except.bind, pure, Except.pure,
            ih, List.filterMap_cons, scanFileError]
      | text s =>
          cases hp : pparse s with
          | none =>
              simp [read_source, parse_source, hfs, hp, hrel, bind,
                Except.bind, pure, Except.pure, ih, List.filterMap_cons,
                scanFileError]
          | some exc =>
              simp [read_source, parse_source, hfs, hp, hrel, bind,
                Except.bind, pure, Except.pure, ih, List.filterMap_cons,
                scanFileError]

/-- C5: over any ordered list of (nonempty, relative) file paths, the scan
records exactly one error per failing file, in list order, and every
remaining file is still read and parsed: the collected errors are the
per-file `scanFileError` results of the whole list.  A file whose source
reads but fails to parse contributes exactly the `UQF001` error carrying
its repo-relative path and the reported syntax-error line and column, each
defaulting to 1 when the parser reports none (`0`/`None`). -/
theorem uqf_c5_scan_files_errors (fs : PPath → FileState)
    (pparse : String → Option SyntaxExc) (root : PPath) (files : List PPath)
    (h : ∀ rel ∈ files, rel.absolute = false ∧ rel.comps ≠ []) :
    _scan_files fs pparse root files
        = .ok (files.filterMap (scanFileError fs pparse root))
      ∧ (∀ rel ∈ files, ∀ src exc, fs (pathJoin root rel) = .text src →
          pparse src = some exc →
          scanFileError fs pparse root rel
            = some ⟨SYNTAX_ERROR_CODE, ⟨false, rel.comps⟩,
                pyOrNat exc.lineno 1, pyOrNat exc.offset 1,
                "syntax error: " ++ pyOrStr exc.msg "syntax error"⟩) := by
  refine ⟨scan_files_filterMap fs pparse root files h, ?_⟩
  intro rel _ src exc hfs hp
  simp [scanFileError, hfs, hp]

/-- Witness for C5: `a.py` fails to parse (with `offset=None` and an empty
message, exercising the defaults), `b.py` parses; exactly one `UQF001`
error at `a.py:3:1` results. -/
theorem uqf_c5_scan_files_errors_witness :
    _scan_files synFs synParse dupRoot [⟨false, ["a.py"]⟩, ⟨false, ["b.py"]⟩]
      = Except.ok [⟨SYNTAX_ERROR_CODE, ⟨false, ["a.py"]⟩, 3, 1,
          "syntax error: syntax error"⟩] :=
  ((uqf_c5_scan_files_errors synFs synParse dupRoot
      [⟨false, ["a.py"]⟩, ⟨false, ["b.py"]⟩] (by decide)).1).trans (by decide)

/-- C6: in every `ScanResult` a completed scan returns, no suggestion has
an empty candidate list, every candidate scores at least any acceptance
threshold, and the candidates are sorted non-increasing by score.  This
holds vacuously: `scan_repository` constructs the result with the empty
suggestion list. -/
theorem uqf_c6_suggestion_invariants (env : Env) (cwd : PPath)
    (r : ScanResult) (h : scan_repository env cwd = .ok (.ok r))
    (threshold : ℚ) :
    ∀ s ∈ r.suggestions,
      s.candidates ≠ []
        ∧ (∀ c ∈ s.candidates, threshold ≤ c.score)
        ∧ candidatesSortedDesc s.candidates := by
  have hs : r.suggestions = [] := by
    unfold scan_repository at h
    cases hroot : env.resolve_repo_root cwd with
    | error e => simp [hroot, pure, Except.pure] at h
    | ok root =>
        simp only [hroot] at h
        cases hfiles : env.list_python_files root with
        | error e => simp [hfiles, pure, Except.pure] at h
        | ok files =>
            simp only [hfiles] at h
            cases herr : _scan_files env.fs env.pparse root files with
            | error e =>
                rw [herr] at h
                simp [bind, Except.bind] at h
            | ok errs =>
                rw [herr] at h
                simp [bind, Except.bind, pure, Except.pure] at h
                rw [← h]
  simp [hs]

/-- Witness for C6: the duplicate-scenario scan completes, at threshold
0. -/
theorem uqf_c6_suggestion_invariants_witness :
    dupResult.suggestions = []
      ∧ ∀ s ∈ dupResult.suggestions,
          s.candidates ≠ []
            ∧ (∀ c ∈ s.candidates, (0 : ℚ) ≤ c.score)
            ∧ candidatesSortedDesc s.candidates :=
  ⟨rfl, uqf_c6_suggestion_invariants dupEnv dupRoot dupResult (by rfl) 0⟩

/-- C3 (code bug): on the two-file duplicate scenario — `a.py` and `b.py`
each defining `dup` — the scan completes and returns a `ScanResult` whose
conflict list is empty: no `NamingConflict` is emitted at all, where the
claim (and the repository's own test) requires exactly one. -/
theorem uqf_c3_dup_scenario_no_conflict :
    scan_repository dupEnv dupRoot = Except.ok (Except.ok dupResult)
      ∧ dupResult.conflicts = [] :=
  ⟨by rfl, rfl⟩

set_option maxRecDepth 100000 in
/-- C1 (code bug): on the duplicate scenario the scan completes without an
environment error, yet `main` returns exit status 0 — `cli.main` returns 0
unconditionally after a successful scan, so the exit status cannot signal
the conflict the claim (and the repository's own test, which expects exit
code 1 here) requires. -/
theorem uqf_c1_dup_scenario_exit_zero :
    scan_repository dupEnv (dupEnv.resolve_path "/repo")
        = Except.ok (Except.ok dupResult)
      ∧ (main dupEnv "0.1.0" fokAll ["--format", "text", "/repo"]).map
          MainResult.exit = Except.ok 0 :=
  ⟨by rfl, by decide⟩

set_option maxRecDepth 100000 in
/-- C2 (code bug): with `--format text` on the duplicate scenario, `main`
prints exactly what it prints with `--format json` — the JSON report of
`format_json`, whose first character is an opening brace — instead of the
line-oriented `path:line:col`-prefixed finding lines the claim (and the
repository's own test) requires. -/
theorem uqf_c2_format_text_prints_json :
    main dupEnv "0.1.0" fokAll ["--format", "text", "/repo"]
        = main dupEnv "0.1.0" fokAll ["--format", "json", "/repo"]
      ∧ main dupEnv "0.1.0" fokAll ["--format", "text", "/repo"]
          = Except.ok ⟨[OutChunk.text (format_json "0.1.0" dupResult)], 0⟩
      ∧ (format_json "0.1.0" dupResult).data.take 1 = ['\x7b'] :=
  ⟨by decide, by decide, by decide⟩

/-- C8: the parsed `--similarity-threshold` value never influences the
output or the exit code: two invocations whose parsed arguments agree on
path, format and version flag — with arbitrary accepted threshold values —
produce identical results. -/
theorem uqf_c8_threshold_noninterference (env : Env) (version : String)
    (floatOk : String → Bool) (argv1 argv2 : List String) (a1 a2 : Args)
    (h1 : parseArgs floatOk argv1 = .ok a1)
    (h2 : parseArgs floatOk argv2 = .ok a2)
    (hpath : a1.path = a2.path) (_hfmt : a1.format = a2.format)
    (hver : a1.version = a2.version) :
    main env version floatOk argv1 = main env version floatOk argv2 := by
  unfold main
  rw [h1, h2]
  show mainFromArgs env version a1 = mainFromArgs env version a2
  unfold mainFromArgs
  rw [hpath, hver]

/-- Witness for C8: thresholds 0.5 and 0.9 on the duplicate scenario. -/
theorem uqf_c8_threshold_noninterference_witness :
    main dupEnv "0.1.0" fokAll ["--similarity-threshold", "0.5"]
      = main dupEnv "0.1.0" fokAll ["--similarity-threshold", "0.9"] :=
  uqf_c8_threshold_noninterference dupEnv "0.1.0" fokAll
    ["--similarity-threshold", "0.5"] ["--similarity-threshold", "0.9"]
    { similarity_threshold := "0.5" } { similarity_threshold := "0.9" }
    (by decide) (by decide) rfl rfl rfl

/-- C9 counterexample: the argument vector
`["--version", "--format", "xml"]` contains `--version`, but `argparse`
rejects the invalid `--format` choice: the process exits with status 2 and
prints nothing to stdout — the version string is not printed. -/
theorem uqf_c9_version_counterexample :
    main dupEnv "0.1.0" fokAll ["--version", "--format", "xml"]
      = Except.ok ⟨[], 2⟩ := by
  rfl

/-- C9 amended: for every argument vector the argument parser accepts with
the `--version` flag set, `main` prints exactly the package version string
and returns exit code 0, independently of the environment — no repository
root is resolved, no file is read, no scan is performed. -/
theorem uqf_c9_version_amended (env : Env) (version : String)
    (floatOk : String → Bool) (argv : List String) (a : Args)
    (h : parseArgs floatOk argv = .ok a) (hv : a.version = true) :
    main env version floatOk argv
      = Except.ok ⟨[OutChunk.text version], 0⟩ := by
  unfold main
  rw [h]
  show mainFromArgs env version a = _
  unfold mainFromArgs
  rw [hv]
  rfl

/-- Witness for C9 amended: plain `--version`. -/
theorem uqf_c9_version_amended_witness :
    main dupEnv "0.1.0" fokAll ["--version"]
      = Except.ok ⟨[OutChunk.text "0.1.0"], 0⟩ :=
  uqf_c9_version_amended dupEnv "0.1.0" fokAll ["--version"] versionArgs
    (by decide) rfl

end Uniqfunc
